import Mathlib

/-!
# Verification of the file-sharing service's batch-ingestion pipeline

Shallow embedding of `src/main.py` (a FastAPI file-sharing service).
The embedding covers, faithfully to the Python source:

* the configuration constants (`MAX_FILE_SIZE`, `MAX_FILES_PER_REQUEST`,
  the supported-extension sets);
* `FileProcessor.validate_file` (pure validator);
* `FileManager._create_safe_filename` (sanitising + collision-avoiding namer);
* `FileManager.save_file` (validate, resolve name, write; all exceptions
  caught and turned into a failure triple);
* the `POST /upload` handler `upload_files` (batch-size ceiling, per-file
  fan-out skipping falsy filenames, aggregation of results);
* `FileProcessor._convert_image_sync` (PNG→JPEG post-processing).

Modelling conventions:

* The storage directory is a `List String` of on-disk file names, threaded
  explicitly through every operation (the Python code consults the live
  `uploads/` directory).  Saves within one batch are modelled as the
  linearisation in task order of the concurrent `asyncio.gather`.
* Python `str.isalnum` is modelled by ASCII `Char.isAlphanum`; all names in
  the claims are ASCII.  `str.rstrip()` is modelled by dropping trailing
  whitespace characters.
* Machine-level I/O failure is modelled by an oracle: each incoming file
  carries `ioError : Option String`, the exception message raised by the
  `open`/`write` step (`none` = the write succeeds).  The oracle fires at
  the `open` call, before any bytes are written.  Similarly image
  conversion takes a `pilFails` flag standing for an exception raised by
  the (opaque) PIL load/convert/encode step, treated as atomic.
* Operations additionally report the list of on-disk names they wrote to
  (`writes`) and deleted (`deleted`), so that occupancy/overwrite claims
  can be stated.
-/

namespace FileShare

/-! ## Configuration constants (src/main.py lines 23-27) -/

def MAX_FILE_SIZE : Nat := 100 * 1024 * 1024

def MAX_FILES_PER_REQUEST : Nat := 100

def SUPPORTED_IMAGE_FORMATS : List String :=
  [".png", ".jpg", ".jpeg", ".gif", ".bmp", ".tiff", ".webp"]

def SUPPORTED_FORMATS : List String :=
  SUPPORTED_IMAGE_FORMATS ++ [".pdf", ".txt", ".docx", ".xlsx", ".zip", ".mp4", ".mp3"]

/-! ## `pathlib.Path` name/stem/suffix semantics

`Path(filename).name` is the last path component ('' and '.' components are
dropped by `pathlib`); `suffix` is `name[i:]` where `i = name.rfind('.')`
when `0 < i < len(name) - 1`, else `''`; `stem` is the matching prefix. -/

/-- Python `str.split('/')` on the character list (as used by `pathlib` to
parse a POSIX path into components). -/
def splitSlash : List Char → List (List Char)
  | [] => [[]]
  | c :: cs =>
    match splitSlash cs with
    | [] => [[]]
    | r :: rs => if c = '/' then [] :: r :: rs else (c :: r) :: rs

/-- ASCII lower-casing of a string, character by character (the extension
strings compared in the source are ASCII, so this matches `str.lower()`). -/
def lowerStr (s : String) : String :=
  ⟨s.data.map Char.toLower⟩

def pathName (p : String) : String :=
  ((((splitSlash p.data).map (fun cs => (⟨cs⟩ : String))).filter
    (fun s => s != "" && s != ".")).getLast?).getD ""

/-- Index of the last `'.'` in the character list (Python `str.rfind('.')`). -/
def lastDotIdx (cs : List Char) : Option Nat :=
  match (cs.reverse).findIdx? (fun c => c = '.') with
  | none => none
  | some j => some (cs.length - 1 - j)

def pyStem (name : String) : String :=
  let cs := name.data
  match lastDotIdx cs with
  | some i => if 0 < i ∧ i < cs.length - 1 then ⟨cs.take i⟩ else name
  | none => name

def pySuffix (name : String) : String :=
  let cs := name.data
  match lastDotIdx cs with
  | some i => if 0 < i ∧ i < cs.length - 1 then ⟨cs.drop i⟩ else ""
  | none => ""

/-- `Path.with_suffix(s)`: the name with its (possibly empty) suffix replaced. -/
def pyWithSuffix (name : String) (s : String) : String :=
  pyStem name ++ s

/-! ## Validator (`FileProcessor.validate_file`, lines 70-81) -/

def validate_file (filename : String) (file_size : Nat) : Bool × String :=
  let sfx := pySuffix (pathName filename)
  if file_size > MAX_FILE_SIZE then
    (false, "File size " ++ toString file_size ++ " exceeds maximum allowed size "
      ++ toString MAX_FILE_SIZE)
  else if lowerStr sfx ∉ SUPPORTED_FORMATS then
    (false, "File type " ++ sfx ++ " not supported")
  else
    (true, "Valid")

example : validate_file "virus.exe" 1024 = (false, "File type .exe not supported") := by
  decide

example : (validate_file "photo.PNG" 1024).1 = true := by decide

example : validate_file "a/b/report.pdf" 2048 = (true, "Valid") := by decide

/-! ## Decimal representation length bound

`FileManager._create_safe_filename` loops `safe_name_{counter}` until the
name is free.  To embed that loop as a total function we need that fresh
candidate names always exist; that follows from `str(counter)` growing
without bound, i.e. `n < 10 ^ len(str(n))`. -/

theorem length_le_toDigitsCore (b : Nat) :
    ∀ (f n : Nat) (l : List Char), l.length ≤ (Nat.toDigitsCore b f n l).length := by
  intro f
  induction f with
  | zero => intro n l; simp [Nat.toDigitsCore]
  | succ f ih =>
    intro n l
    simp only [Nat.toDigitsCore]
    by_cases h : n / b = 0
    · simp [h]
    · simp only [h, if_false]
      calc l.length ≤ (Nat.digitChar (n % b) :: l).length := by simp
        _ ≤ _ := ih (n / b) (Nat.digitChar (n % b) :: l)

theorem lt_pow_toDigitsCore (b : Nat) (hb : 2 ≤ b) :
    ∀ (f n : Nat) (l : List Char), n < f →
      n < b ^ ((Nat.toDigitsCore b f n l).length - l.length) := by
  intro f
  induction f with
  | zero => intro n l h; omega
  | succ f ih =>
    intro n l hn
    simp only [Nat.toDigitsCore]
    by_cases h : n / b = 0
    · simp only [h, if_true, List.length_cons]
      have hnb : n < b := by
        have := Nat.div_eq_zero_iff (by omega : 0 < b) |>.mp h
        exact this
      simpa using hnb
    · simp only [h, if_false]
      have hb0 : 0 < b := by omega
      have hnpos : 0 < n := by
        rcases Nat.eq_zero_or_pos n with h0 | h0
        · exact absurd (by simp [h0]) h
        · exact h0
      have hdiv_lt : n / b < n := Nat.div_lt_self hnpos (by omega)
      have hdiv_f : n / b < f := by omega
      have hIH := ih (n / b) (Nat.digitChar (n % b) :: l) hdiv_f
      have hlen : (Nat.digitChar (n % b) :: l).length ≤
          (Nat.toDigitsCore b f (n / b) (Nat.digitChar (n % b) :: l)).length :=
        length_le_toDigitsCore b f (n / b) _
      set L := (Nat.toDigitsCore b f (n / b) (Nat.digitChar (n % b) :: l)).length with hL
      have hsub : L - l.length = (L - (l.length + 1)) + 1 := by
        simp only [List.length_cons] at hlen
        omega
      rw [hsub, pow_succ]
      have h1 : n < b * (n / b) + b := by
        have := Nat.div_add_mod n b
        have := Nat.mod_lt n hb0
        omega
      have h2 : b * (n / b) + b = b * (n / b + 1) := by ring
      have h3 : n / b + 1 ≤ b ^ (L - (l.length + 1)) := hIH
      calc n < b * (n / b + 1) := by omega
        _ ≤ b * b ^ (L - (l.length + 1)) := Nat.mul_le_mul_left b h3
        _ = b ^ (L - (l.length + 1)) * b := by ring

theorem lt_pow_repr_length (n : Nat) : n < 10 ^ (Nat.repr n).length := by
  have h := lt_pow_toDigitsCore 10 (by omega) (n + 1) n [] (Nat.lt_succ_self n)
  simpa [Nat.repr, Nat.toDigits, String.length, List.asString] using h

/-! ## Safe Namer (`FileManager._create_safe_filename`, lines 111-125) -/

/-- The `k`-th candidate name tried by the collision loop: the sanitised
base plus extension for `k = 0`, then `{base}_{k}{ext}` for `k ≥ 1`
(Python's `counter` rendering is `str(k) = Nat.repr k`). -/
def candidate (base ext : String) (k : Nat) : String :=
  if k = 0 then base ++ ext else base ++ "_" ++ Nat.repr k ++ ext

/-- The loop's guard `(UPLOAD_DIR / name).exists()`.  For the empty
candidate name — sanitised base and extension both empty, e.g. raw
filename `"###"` — `UPLOAD_DIR / ''` collapses to the uploads directory
itself, which always exists (`UPLOAD_DIR.mkdir(exist_ok=True)`, line 30);
every other candidate is a plain name checked against the directory
listing. -/
def pyExists (snap : List String) (name : String) : Bool :=
  decide (name = "") || decide (name ∈ snap)

@[simp] theorem pyExists_eq_true (snap : List String) (name : String) :
    pyExists snap name = true ↔ (name = "" ∨ name ∈ snap) := by
  simp [pyExists]

@[simp] theorem pyExists_eq_false (snap : List String) (name : String) :
    pyExists snap name = false ↔ (name ≠ "" ∧ name ∉ snap) := by
  simp [pyExists, not_or]

theorem exists_candidate_free (snap : List String) (base ext : String) :
    ∃ k, pyExists snap (candidate base ext k) = false := by
  by_contra hall
  push_neg at hall
  have hex := hall (10 ^ ((snap.map String.length).sum + 1))
  rw [Bool.ne_false_iff, pyExists_eq_true] at hex
  have hk0 : (10 : Nat) ^ ((snap.map String.length).sum + 1) ≠ 0 := by positivity
  have h1 : (snap.map String.length).sum + 1 <
      (Nat.repr (10 ^ ((snap.map String.length).sum + 1))).length :=
    (Nat.pow_lt_pow_iff_right (by omega)).mp (lt_pow_repr_length _)
  have hu : ("_" : String).length = 1 := rfl
  have h2 : (candidate base ext (10 ^ ((snap.map String.length).sum + 1))).length =
      base.length + 1 + (Nat.repr (10 ^ ((snap.map String.length).sum + 1))).length +
        ext.length := by
    unfold candidate
    rw [if_neg hk0]
    simp only [String.length_append, hu]
  rcases hex with hempty | hmem
  · rw [hempty] at h2
    have : ("" : String).length = 0 := rfl
    omega
  · have hlen_mem : (candidate base ext (10 ^ ((snap.map String.length).sum + 1))).length ≤
        (snap.map String.length).sum :=
      List.single_le_sum (fun x _ => Nat.zero_le x) _
        (List.mem_map_of_mem String.length hmem)
    omega

/-- The collision loop: the first candidate (in order `k = 0, 1, 2, …`)
for which the `exists()` check fails. -/
def findFreeName (snap : List String) (base ext : String) : String :=
  candidate base ext (Nat.find (exists_candidate_free snap base ext))

theorem findFreeName_free (snap : List String) (base ext : String) :
    pyExists snap (findFreeName snap base ext) = false :=
  Nat.find_spec (exists_candidate_free snap base ext)

theorem findFreeName_not_mem (snap : List String) (base ext : String) :
    findFreeName snap base ext ∉ snap :=
  ((pyExists_eq_false snap _).mp (findFreeName_free snap base ext)).2

theorem findFreeName_eq (snap : List String) (base ext : String) (k : Nat)
    (h1 : pyExists snap (candidate base ext k) = false)
    (h2 : ∀ j < k, pyExists snap (candidate base ext j) = true) :
    findFreeName snap base ext = candidate base ext k := by
  unfold findFreeName
  congr 1
  rw [Nat.find_eq_iff]
  refine ⟨h1, fun n hn hfalse => ?_⟩
  rw [h2 n hn] at hfalse
  simp at hfalse

/-- Characters kept by the sanitiser: `c.isalnum() or c in (' ', '-', '_')`
(Python's Unicode `isalnum` restricted to ASCII). -/
def keepChar (c : Char) : Bool :=
  c.isAlphanum || c = ' ' || c = '-' || c = '_'

/-- Python `str.rstrip()` (drop trailing whitespace). -/
def pyRstrip (cs : List Char) : List Char :=
  ((cs.reverse).dropWhile (fun c => c.isWhitespace)).reverse

/-- `safe_name = "".join(c for c in path.stem if ...).rstrip()` then
`safe_name[:50]`. -/
def sanitizedBase (filename : String) : String :=
  ⟨(pyRstrip (((pyStem (pathName filename)).data).filter keepChar)).take 50⟩

def create_safe_filename (snap : List String) (filename : String) : String :=
  findFreeName snap (sanitizedBase filename) (pySuffix (pathName filename))

theorem create_safe_filename_not_mem (snap : List String) (filename : String) :
    create_safe_filename snap filename ∉ snap :=
  findFreeName_not_mem snap (sanitizedBase filename) (pySuffix (pathName filename))

example : create_safe_filename [] "photo.png" = "photo.png" := by
  rw [create_safe_filename, findFreeName_eq _ _ _ 0 (by decide) (by omega)]
  decide

example : create_safe_filename ["photo.png"] "photo.png" = "photo_1.png" := by
  rw [create_safe_filename, findFreeName_eq _ _ _ 1 (by decide) ?h2]
  · decide
  case h2 =>
    intro j hj
    have hj0 : j = 0 := by omega
    subst hj0
    decide

/-- A base that sanitises to nothing and has no extension: the first
candidate is the empty name, `UPLOAD_DIR / ''` always exists, so the code
returns `_1` even against empty storage. -/
example : create_safe_filename [] "###" = "_1" := by
  rw [create_safe_filename, findFreeName_eq _ _ _ 1 (by decide) ?h2]
  · decide
  case h2 =>
    intro j hj
    have hj0 : j = 0 := by omega
    subst hj0
    decide

/-! ## Persistence Unit (`FileManager.save_file`, lines 86-109)

An incoming file (`UploadFile`): its declared name (`""` models a missing or
empty filename, which is falsy in Python), its declared size (`file.size or
0`), and the I/O oracle for the write step.  The stored `path` is the
on-disk name relative to the uploads directory. -/

structure UpFile where
  filename : String
  size : Nat
  ioError : Option String
deriving DecidableEq, Repr

structure SaveResult where
  success : Bool
  message : String
  path : Option String
deriving DecidableEq, Repr

structure SaveOutcome where
  result : SaveResult
  fs : List String
  writes : List String
deriving DecidableEq, Repr

/-- The body of `save_file`'s `try` block.  An exception raised by the
open/write step surfaces as `.error`; everything before the write is pure
and cannot raise. -/
def save_file_body (fs : List String) (f : UpFile) :
    Except String (SaveResult × List String × List String) :=
  let v := validate_file f.filename f.size
  if v.1 = false then
    .ok (⟨false, v.2, none⟩, fs, [])
  else
    let safe := create_safe_filename fs f.filename
    match f.ioError with
    | some e => .error e
    | none => .ok (⟨true, "File saved successfully", some safe⟩, safe :: fs, [safe])

/-- `save_file` wraps the body in `try/except Exception`, converting any
exception `e` into the failure triple `(False, f"Error saving file: {e}",
None)` (lines 107-109). -/
def save_file (fs : List String) (f : UpFile) : SaveOutcome :=
  match save_file_body fs f with
  | .ok (r, fs', w) => ⟨r, fs', w⟩
  | .error e => ⟨⟨false, "Error saving file: " ++ e, none⟩, fs, []⟩

/-! ## Post-processing (`FileProcessor._convert_image_sync`, lines 46-68)

The PIL load/convert/encode step is opaque (spec §1); `pilFails` is the
oracle for an exception raised anywhere inside the `try` block, treated as
atomic (no partial write), and `Path.unlink` is modelled as succeeding. -/

structure ConvertOutcome where
  returned : String
  fs : List String
  writes : List String
  deleted : List String
deriving DecidableEq, Repr

def convert_image_sync (fs : List String) (nm : String) (targetFormat : String)
    (pilFails : Bool) : ConvertOutcome :=
  if lowerStr (pySuffix nm) ∉ SUPPORTED_IMAGE_FORMATS then
    ⟨nm, fs, [], []⟩
  else
    let target := pyWithSuffix nm (if targetFormat = "JPEG" then ".jpg" else ".png")
    if pilFails then
      ⟨nm, fs, [], []⟩
    else
      let fs1 := if target ∈ fs then fs else target :: fs
      if target ≠ nm then
        ⟨target, fs1.erase nm, [target], [nm]⟩
      else
        ⟨target, fs1, [target], []⟩

/-! ## Batch Coordinator (`upload_files`, lines 422-458)

The concurrent `asyncio.gather` over the per-file save tasks is modelled as
its linearisation in task order; the reported results list is in task order
regardless of completion order, exactly as `gather` guarantees.  Files with
a falsy `filename` produce no task (line 436).  The result loop pairs
`upload_results[i]` with `files[i]` — note `files` is the *unfiltered*
list (lines 443-456). -/

structure BatchResult where
  successful : Nat
  failed : Nat
  errors : List String
deriving DecidableEq, Repr

def runSaves : List String → List UpFile → List SaveResult × List String × List String
  | fs, [] => ([], fs, [])
  | fs, f :: rest =>
    let o := save_file fs f
    let (rs, fs', ws) := runSaves o.fs rest
    (o.result :: rs, fs', o.writes ++ ws)

/-- `f"File {files[i].filename}: {message}"` (lines 446 and 456). -/
def errEntry (files : List UpFile) (i : Nat) (msg : String) : String :=
  "File " ++ ((files[i]?.map UpFile.filename).getD "") ++ ": " ++ msg

def aggregate (files : List UpFile) : Nat → List SaveResult → BatchResult
  | _, [] => ⟨0, 0, []⟩
  | i, r :: rs =>
    let rest := aggregate files (i + 1) rs
    if r.success then
      ⟨rest.successful + 1, rest.failed, rest.errors⟩
    else
      ⟨rest.successful, rest.failed + 1, errEntry files i r.message :: rest.errors⟩

/-- Outcome of one `POST /upload` request: the HTTP response (an
`HTTPException` status/detail pair, or the JSON results dict), the storage
directory afterwards, and every on-disk name written during the request. -/
structure UploadOutcome where
  response : Except (Nat × String) BatchResult
  fs : List String
  writes : List String

def upload_files (fs : List String) (files : List UpFile) : UploadOutcome :=
  if files.length > MAX_FILES_PER_REQUEST then
    ⟨.error (400, "Too many files. Maximum " ++ toString MAX_FILES_PER_REQUEST
        ++ " files allowed per request"), fs, []⟩
  else
    let named := files.filter (fun f => f.filename != "")
    let (rs, fs', ws) := runSaves fs named
    ⟨.ok (aggregate files 0 rs), fs', ws⟩

example : (upload_files [] [⟨"", 100, none⟩]).response = .ok ⟨0, 0, []⟩ := rfl

example : (upload_files ["a.txt"] (List.replicate 101 ⟨"b.txt", 1, none⟩)).response =
    .error (400, "Too many files. Maximum 100 files allowed per request") := rfl

example : save_file ["x.pdf"] ⟨"virus.exe", 1024, none⟩ =
    ⟨⟨false, "File type .exe not supported", none⟩, ["x.pdf"], []⟩ := rfl

example : convert_image_sync ["a.png", "a.jpg"] "a.png" "JPEG" false =
    ⟨"a.jpg", ["a.jpg"].erase "a.png", ["a.jpg"], ["a.png"]⟩ := by decide

/-! ## Derived per-file outcome

`save_file`'s success flag and message are a function of the incoming file
alone (the directory snapshot only influences the chosen stored name).
`fileOutcomeMsg` is that function, extracted for use in theorem statements:
`none` means the save succeeds, `some m` gives the failure message. -/

def fileOutcomeMsg (f : UpFile) : Option String :=
  let v := validate_file f.filename f.size
  if v.1 = false then some v.2
  else
    match f.ioError with
    | some e => some ("Error saving file: " ++ e)
    | none => none

/-- The per-file entry contributed to the reported `errors` list, as a
function of the file alone. -/
def perFileError (f : UpFile) : Option String :=
  (fileOutcomeMsg f).map (fun m => "File " ++ f.filename ++ ": " ++ m)

theorem save_file_invalid (fs : List String) (f : UpFile)
    (h : (validate_file f.filename f.size).1 = false) :
    save_file fs f = ⟨⟨false, (validate_file f.filename f.size).2, none⟩, fs, []⟩ := by
  simp [save_file, save_file_body, h]

theorem save_file_ioerror (fs : List String) (f : UpFile) (e : String)
    (hv : (validate_file f.filename f.size).1 = true) (hio : f.ioError = some e) :
    save_file fs f = ⟨⟨false, "Error saving file: " ++ e, none⟩, fs, []⟩ := by
  simp [save_file, save_file_body, hv, hio]

theorem save_file_success (fs : List String) (f : UpFile)
    (hv : (validate_file f.filename f.size).1 = true) (hio : f.ioError = none) :
    save_file fs f =
      ⟨⟨true, "File saved successfully", some (create_safe_filename fs f.filename)⟩,
        create_safe_filename fs f.filename :: fs,
        [create_safe_filename fs f.filename]⟩ := by
  simp [save_file, save_file_body, hv, hio]

theorem save_file_result_eq (fs : List String) (f : UpFile) :
    ((save_file fs f).result.success, (save_file fs f).result.message) =
      (match fileOutcomeMsg f with
       | some m => (false, m)
       | none => (true, "File saved successfully")) := by
  by_cases hv : (validate_file f.filename f.size).1 = false
  · rw [save_file_invalid fs f hv]
    simp [fileOutcomeMsg, hv]
  · rw [Bool.not_eq_false] at hv
    cases hio : f.ioError with
    | some e =>
      rw [save_file_ioerror fs f e hv hio]
      simp [fileOutcomeMsg, hv, hio]
    | none =>
      rw [save_file_success fs f hv hio]
      simp [fileOutcomeMsg, hv, hio]

@[simp] theorem runSaves_nil (fs : List String) : runSaves fs [] = ([], fs, []) := rfl

@[simp] theorem runSaves_cons (fs : List String) (f : UpFile) (rest : List UpFile) :
    runSaves fs (f :: rest) =
      ((save_file fs f).result :: (runSaves (save_file fs f).fs rest).1,
       (runSaves (save_file fs f).fs rest).2.1,
       (save_file fs f).writes ++ (runSaves (save_file fs f).fs rest).2.2) := rfl

theorem aggregate_counts (files : List UpFile) :
    ∀ (rs : List SaveResult) (i : Nat),
      (aggregate files i rs).successful = rs.countP (fun r => r.success)
      ∧ (aggregate files i rs).failed = rs.countP (fun r => !r.success)
      ∧ (aggregate files i rs).errors.length = rs.countP (fun r => !r.success) := by
  intro rs
  induction rs with
  | nil => intro i; simp [aggregate]
  | cons r rs ih =>
    intro i
    obtain ⟨h1, h2, h3⟩ := ih (i + 1)
    by_cases hs : r.success
    · simp [aggregate, hs, h1, h2, h3, List.countP_cons]
    · simp only [Bool.not_eq_true] at hs
      simp [aggregate, hs, h1, h2, h3, List.countP_cons]

/-- Closed form of the aggregation over the saves of a batch whose files
align with the lookup list `files₀` from index `i` on: each file
contributes independently of the others. -/
theorem aggregate_runSaves_closed :
    ∀ (files : List UpFile) (fs : List String) (files₀ : List UpFile) (i : Nat),
      (∀ j : Nat, files₀[i + j]? = files[j]?) →
      aggregate files₀ i (runSaves fs files).1 =
        ⟨files.countP (fun f => (fileOutcomeMsg f).isNone),
         files.countP (fun f => !(fileOutcomeMsg f).isNone),
         files.filterMap perFileError⟩ := by
  intro files
  induction files with
  | nil => intro fs files₀ i h; simp [aggregate]
  | cons f rest ih =>
    intro fs files₀ i h
    have hshift : ∀ j : Nat, files₀[(i + 1) + j]? = rest[j]? := by
      intro j
      have hj := h (j + 1)
      simpa [Nat.add_assoc, Nat.add_comm 1 j] using hj
    have h0 : files₀[i]? = some f := by
      have := h 0
      simpa using this
    have hres := save_file_result_eq fs f
    have hih := ih (save_file fs f).fs files₀ (i + 1) hshift
    cases hmsg : fileOutcomeMsg f with
    | none =>
      rw [hmsg] at hres
      have hsucc : (save_file fs f).result.success = true := by
        have := congrArg Prod.fst hres; simpa using this
      simp [runSaves_cons, aggregate, hsucc, hih, List.countP_cons, hmsg,
        List.filterMap_cons, perFileError]
    | some m =>
      rw [hmsg] at hres
      have hsucc : (save_file fs f).result.success = false := by
        have := congrArg Prod.fst hres; simpa using this
      have hm : (save_file fs f).result.message = m := by
        have := congrArg Prod.snd hres; simpa using this
      simp [runSaves_cons, aggregate, hsucc, hm, hih, List.countP_cons, hmsg,
        List.filterMap_cons, perFileError, errEntry, h0]

theorem upload_files_ok (fs : List String) (files : List UpFile)
    (h : ¬ files.length > MAX_FILES_PER_REQUEST) :
    upload_files fs files =
      ⟨.ok (aggregate files 0 (runSaves fs (files.filter (fun f => f.filename != ""))).1),
       (runSaves fs (files.filter (fun f => f.filename != ""))).2.1,
       (runSaves fs (files.filter (fun f => f.filename != ""))).2.2⟩ := by
  unfold upload_files
  rw [if_neg h]

theorem upload_files_reject (fs : List String) (files : List UpFile)
    (h : files.length > MAX_FILES_PER_REQUEST) :
    upload_files fs files =
      ⟨.error (400, "Too many files. Maximum 100 files allowed per request"), fs, []⟩ := by
  unfold upload_files
  rw [if_pos h]
  rfl

/-- The sanitation step exactly as claim C6 words it: keep only the allowed
characters of the base name and truncate to 50 — with no trailing-whitespace
strip.  (The source additionally applies `.rstrip()` before truncating.) -/
def claimSanitizedBase_C6 (filename : String) : String :=
  ⟨(((pyStem (pathName filename)).data).filter keepChar).take 50⟩

/-- The Safe Namer as described by claim C6's algorithm, differing from
`create_safe_filename` only in the missing `.rstrip()` step. -/
def claimNamer_C6 (snap : List String) (filename : String) : String :=
  findFreeName snap (claimSanitizedBase_C6 filename) (pySuffix (pathName filename))

theorem countP_add_countP_not {α : Type} (l : List α) (p : α → Bool) :
    l.countP p + l.countP (fun a => !p a) = l.length := by
  induction l with
  | nil => simp
  | cons a l ih =>
    by_cases h : p a <;> simp [List.countP_cons, h, ← ih] <;> omega

/-! ## Claim theorems -/

/-- C1, counterexample: a batch of K = 1 files whose single file has an
empty (falsy) filename is accepted (K ≤ MAX_FILES_PER_REQUEST) but the
returned result has `successful + failed = 0 ≠ 1`: the file is silently
skipped rather than counted. -/
theorem C1_counterexample :
    (upload_files [] [⟨"", 100, none⟩]).response = .ok ⟨0, 0, []⟩
    ∧ (0 + 0 : Nat) ≠ ([(⟨"", 100, none⟩ : UpFile)]).length :=
  ⟨rfl, by decide⟩

/-- C1, amended: for every batch of K ≤ MAX_FILES_PER_REQUEST files, each
with a non-empty filename, the returned result satisfies
`successful + failed = K`. -/
theorem C1_amended_ok (fs : List String) (files : List UpFile)
    (hlen : files.length ≤ MAX_FILES_PER_REQUEST)
    (hnamed : ∀ f ∈ files, f.filename ≠ "") :
    (upload_files fs files).response.map (fun r => r.successful + r.failed) =
      .ok files.length := by
  have hfilter : files.filter (fun f => f.filename != "") = files :=
    List.filter_eq_self.mpr (fun f hf => by simpa [bne_iff_ne] using hnamed f hf)
  rw [upload_files_ok fs files (by omega), hfilter,
    aggregate_runSaves_closed files fs files 0 (fun j => by simp)]
  simp only [Except.map]
  rw [countP_add_countP_not]

/-- C1 witness: a concrete two-file batch with non-empty filenames has
`successful + failed = 2`. -/
theorem C1_amended_witness :
    (upload_files [] [⟨"virus.exe", 10, none⟩, ⟨"doc.txt", 2, some "boom"⟩]).response.map
      (fun r => r.successful + r.failed) = .ok 2 := by
  have h := C1_amended_ok [] [⟨"virus.exe", 10, none⟩, ⟨"doc.txt", 2, some "boom"⟩]
    (by decide) (by decide)
  simpa using h

/-- C2: a batch of more than MAX_FILES_PER_REQUEST files is rejected with a
request-level client error (HTTP 400, the "Too many files" detail) before
any per-file processing: storage is unchanged and no name is written. -/
theorem C2_batch_reject (fs : List String) (files : List UpFile)
    (h : files.length > MAX_FILES_PER_REQUEST) :
    upload_files fs files =
      ⟨.error (400, "Too many files. Maximum 100 files allowed per request"), fs, []⟩ :=
  upload_files_reject fs files h

/-- C2 witness: a concrete 101-file batch is rejected wholesale. -/
theorem C2_witness :
    (List.replicate 101 (⟨"b.txt", 1, none⟩ : UpFile)).length > MAX_FILES_PER_REQUEST
    ∧ upload_files ["a.txt"] (List.replicate 101 ⟨"b.txt", 1, none⟩) =
      ⟨.error (400, "Too many files. Maximum 100 files allowed per request"),
        ["a.txt"], []⟩ :=
  ⟨by decide, C2_batch_reject ["a.txt"] _ (by decide)⟩

/-- C3: `validate_file` rejects exactly when the declared size exceeds
MAX_FILE_SIZE (message citing both values) or the lower-cased extension is
outside the supported set, which is exactly
png/jpg/jpeg/gif/bmp/tiff/webp/pdf/txt/docx/xlsx/zip/mp4/mp3; it accepts
otherwise, as a pure function of its two arguments. -/
theorem C3_validator_spec (fn : String) (sz : Nat) :
    ((validate_file fn sz).1 = false ↔
      sz > MAX_FILE_SIZE ∨ lowerStr (pySuffix (pathName fn)) ∉ SUPPORTED_FORMATS)
    ∧ (sz > MAX_FILE_SIZE →
        (validate_file fn sz).2 =
          "File size " ++ toString sz ++ " exceeds maximum allowed size "
            ++ toString MAX_FILE_SIZE)
    ∧ (sz ≤ MAX_FILE_SIZE → lowerStr (pySuffix (pathName fn)) ∉ SUPPORTED_FORMATS →
        (validate_file fn sz).2 = "File type " ++ pySuffix (pathName fn) ++ " not supported")
    ∧ ((validate_file fn sz).1 = true → (validate_file fn sz).2 = "Valid")
    ∧ SUPPORTED_FORMATS =
        [".png", ".jpg", ".jpeg", ".gif", ".bmp", ".tiff", ".webp",
         ".pdf", ".txt", ".docx", ".xlsx", ".zip", ".mp4", ".mp3"] := by
  unfold validate_file
  by_cases h1 : sz > MAX_FILE_SIZE
  · refine ⟨by simp [h1], fun _ => by simp [h1], fun hle => absurd h1 (by omega),
      ?_, rfl⟩
    intro hb
    simp [h1] at hb
  · by_cases h2 : lowerStr (pySuffix (pathName fn)) ∉ SUPPORTED_FORMATS
    · refine ⟨by simp [h1, h2], fun hgt => absurd hgt h1, fun _ _ => by simp [h1, h2],
        ?_, rfl⟩
      intro hb
      simp [h1, h2] at hb
    · refine ⟨by simp [h1, h2], fun hgt => absurd hgt h1,
        fun _ hnot => absurd hnot h2, fun _ => by simp [h1, h2], rfl⟩

/-- C3 witness: an oversized `.PNG` is rejected citing both sizes; a
`.exe` is rejected citing the extension; a small `.png` is accepted. -/
theorem C3_witness :
    (validate_file "photo.PNG" 104857601).1 = false
    ∧ (validate_file "photo.PNG" 104857601).2 =
        "File size 104857601 exceeds maximum allowed size 104857600"
    ∧ (validate_file "virus.exe" 5).2 = "File type .exe not supported"
    ∧ (validate_file "photo.png" 5).2 = "Valid" := by
  have h1 := C3_validator_spec "photo.PNG" 104857601
  have h2 := C3_validator_spec "virus.exe" 5
  have h3 := C3_validator_spec "photo.png" 5
  refine ⟨h1.1.mpr (Or.inl (by decide)), (h1.2.1 (by decide)).trans (by decide),
    (h2.2.2.1 (by decide) (by decide)).trans (by decide), h3.2.2.2.1 (by decide)⟩

/-- C4: when the validator rejects an incoming file, `save_file` returns a
failure carrying exactly the validator's reason, leaves storage unchanged
and writes no on-disk name. -/
theorem C4_reject_no_write (fs : List String) (f : UpFile)
    (h : (validate_file f.filename f.size).1 = false) :
    save_file fs f = ⟨⟨false, (validate_file f.filename f.size).2, none⟩, fs, []⟩ :=
  save_file_invalid fs f h

/-- C4 witness: a `.exe` file (any size) and an oversized `.png` are both
rejected with zero bytes written. -/
theorem C4_witness :
    save_file ["keep.txt"] ⟨"virus.exe", 1024, none⟩ =
      ⟨⟨false, "File type .exe not supported", none⟩, ["keep.txt"], []⟩
    ∧ save_file [] ⟨"big.png", 104857601, none⟩ =
      ⟨⟨false, "File size 104857601 exceeds maximum allowed size 104857600", none⟩,
        [], []⟩ :=
  ⟨(C4_reject_no_write ["keep.txt"] ⟨"virus.exe", 1024, none⟩ (by decide)).trans (by decide),
   (C4_reject_no_write [] ⟨"big.png", 104857601, none⟩ (by decide)).trans (by decide)⟩

/-- C5: an I/O exception during a save is caught inside `save_file` and
returned as the `(False, "Error saving file: ...", None)` triple (second
conjunct); and the batch response exists (never an exception) with each
file's entry a function of that file alone, so one file's failure cannot
abort the batch or change any other file's entry (first conjunct). -/
theorem C5_io_isolation (fs : List String) (files : List UpFile)
    (hlen : files.length ≤ MAX_FILES_PER_REQUEST)
    (hnamed : ∀ f ∈ files, f.filename ≠ "") :
    (upload_files fs files).response =
      .ok ⟨files.countP (fun f => (fileOutcomeMsg f).isNone),
           files.countP (fun f => !(fileOutcomeMsg f).isNone),
           files.filterMap perFileError⟩
    ∧ ∀ (fs' : List String) (f : UpFile) (e : String),
        (validate_file f.filename f.size).1 = true → f.ioError = some e →
        (save_file fs' f).result = ⟨false, "Error saving file: " ++ e, none⟩ := by
  constructor
  · have hfilter : files.filter (fun f => f.filename != "") = files :=
      List.filter_eq_self.mpr (fun f hf => by simpa [bne_iff_ne] using hnamed f hf)
    rw [upload_files_ok fs files (by omega), hfilter,
      aggregate_runSaves_closed files fs files 0 (fun j => by simp)]
  · intro fs' f e hv hio
    rw [save_file_ioerror fs' f e hv hio]

/-- C5 witness: a disk-full failure on the first file is reported in place
while the second file of the batch is processed normally. -/
theorem C5_witness :
    (upload_files [] [⟨"a.txt", 5, some "disk full"⟩, ⟨"b.pdf", 7, none⟩]).response =
      .ok ⟨1, 1, ["File a.txt: Error saving file: disk full"]⟩ := by
  have h := (C5_io_isolation [] [⟨"a.txt", 5, some "disk full"⟩, ⟨"b.pdf", 7, none⟩]
    (by decide) (by decide)).1
  exact h.trans (by rfl)

/-- C6, counterexample: on `"a .png"` (base name with a trailing space kept
by the character filter) the code's namer yields `"a.png"` — the source
applies `.rstrip()` after the character filter — while the algorithm as the
claim words it (no strip) yields `"a .png"`. -/
theorem C6_counterexample :
    create_safe_filename [] "a .png" = "a.png"
    ∧ claimNamer_C6 [] "a .png" = "a .png" := by
  constructor
  · rw [create_safe_filename, findFreeName_eq _ _ _ 0 (by decide) (by omega)]
    decide
  · rw [claimNamer_C6, findFreeName_eq _ _ _ 0 (by decide) (by omega)]
    decide

/-- C6, amended: the Safe Namer keeps only alphanumerics, spaces, hyphens
and underscores of the base name, *strips trailing whitespace*, truncates
to 50 characters and reattaches the original extension; the result is the
first candidate (base, then base_1, base_2, …) for which the `exists()`
check fails, where the empty candidate always "exists" (it denotes the
uploads directory itself, so an all-invalid name with no extension yields
`_1`, not `''`) — hence deterministic, never an existing name, never
empty, and three repeated uploads of the same filename get three
pairwise-distinct names. -/
theorem C6_amended_ok (snap : List String) (fn : String) :
    (∃ k, create_safe_filename snap fn =
        candidate (sanitizedBase fn) (pySuffix (pathName fn)) k
      ∧ pyExists snap (candidate (sanitizedBase fn) (pySuffix (pathName fn)) k) = false
      ∧ ∀ j < k,
          pyExists snap (candidate (sanitizedBase fn) (pySuffix (pathName fn)) j) = true)
    ∧ create_safe_filename snap fn ∉ snap
    ∧ create_safe_filename snap fn ≠ ""
    ∧ create_safe_filename (create_safe_filename snap fn :: snap) fn ≠
        create_safe_filename snap fn
    ∧ create_safe_filename
        (create_safe_filename (create_safe_filename snap fn :: snap) fn ::
          create_safe_filename snap fn :: snap) fn ≠
        create_safe_filename (create_safe_filename snap fn :: snap) fn
    ∧ create_safe_filename
        (create_safe_filename (create_safe_filename snap fn :: snap) fn ::
          create_safe_filename snap fn :: snap) fn ≠
        create_safe_filename snap fn := by
  have hs1 := create_safe_filename_not_mem snap fn
  have hs2 := create_safe_filename_not_mem (create_safe_filename snap fn :: snap) fn
  have hs3 := create_safe_filename_not_mem
    (create_safe_filename (create_safe_filename snap fn :: snap) fn ::
      create_safe_filename snap fn :: snap) fn
  have hne : create_safe_filename snap fn ≠ "" :=
    ((pyExists_eq_false snap _).mp
      (findFreeName_free snap (sanitizedBase fn) (pySuffix (pathName fn)))).1
  have H := exists_candidate_free snap (sanitizedBase fn) (pySuffix (pathName fn))
  refine ⟨⟨Nat.find H, rfl, Nat.find_spec H, fun j hj => ?_⟩,
    hs1, hne, ?_, ?_, ?_⟩
  · have hmin := Nat.find_min H hj
    cases hb : pyExists snap (candidate (sanitizedBase fn) (pySuffix (pathName fn)) j) with
    | false => exact absurd hb hmin
    | true => rfl
  · intro he
    exact hs2 (by rw [he]; exact List.mem_cons_self _ _)
  · intro he
    exact hs3 (by rw [he]; exact List.mem_cons_self _ _)
  · intro he
    exact hs3 (by rw [he]; exact List.mem_cons_of_mem _ (List.mem_cons_self _ _))

/-- C7, counterexample: with both `a.png` and `a.jpg` stored, the image
conversion of `a.png` writes its output to the on-disk name `a.jpg`, which
is already occupied by an existing stored file — the converter never checks
occupancy, so the invariant does not hold for post-processing. -/
theorem C7_counterexample :
    "a.jpg" ∈ (convert_image_sync ["a.png", "a.jpg"] "a.png" "JPEG" false).writes
    ∧ "a.jpg" ∈ ["a.png", "a.jpg"] := by
  decide

/-- C7, amended: the save path never writes to an occupied on-disk name
(the Safe Namer resolves a fresh name against the snapshot at check time);
the conversion step, however, can overwrite (see the counterexample). -/
theorem C7_amended_ok (fs : List String) (f : UpFile) (w : String)
    (hw : w ∈ (save_file fs f).writes) : w ∉ fs := by
  by_cases hv : (validate_file f.filename f.size).1 = false
  · rw [save_file_invalid fs f hv] at hw
    simp at hw
  · rw [Bool.not_eq_false] at hv
    cases hio : f.ioError with
    | some e =>
      rw [save_file_ioerror fs f e hv hio] at hw
      simp at hw
    | none =>
      rw [save_file_success fs f hv hio] at hw
      simp at hw
      subst hw
      exact create_safe_filename_not_mem fs f.filename

/-- C7 witness: saving `report.pdf` into empty storage writes the fresh
name `report.pdf`, not an occupied one. -/
theorem C7_witness :
    "report.pdf" ∈ (save_file [] ⟨"report.pdf", 2048, none⟩).writes
    ∧ "report.pdf" ∉ ([] : List String) := by
  have hm : "report.pdf" ∈ (save_file [] ⟨"report.pdf", 2048, none⟩).writes := by
    rw [save_file_success [] ⟨"report.pdf", 2048, none⟩ (by decide) rfl]
    have hc : create_safe_filename [] "report.pdf" = "report.pdf" := by
      rw [create_safe_filename, findFreeName_eq _ _ _ 0 (by decide) (by omega)]
      decide
    simp [hc]
  exact ⟨hm, C7_amended_ok [] ⟨"report.pdf", 2048, none⟩ "report.pdf" hm⟩

/-- C8: if the conversion transform raises, the storage state is unchanged
(original intact and unrenamed), nothing is written and nothing is deleted;
and the original is deleted only when the transform succeeded, the output
was written under the new (different) extension and is present afterwards. -/
theorem C8_convert_safe (fs : List String) (nm fmt : String) (b : Bool) :
    (b = true → convert_image_sync fs nm fmt b = ⟨nm, fs, [], []⟩)
    ∧ (∀ x ∈ (convert_image_sync fs nm fmt b).deleted,
        b = false ∧ x = nm
        ∧ pyWithSuffix nm (if fmt = "JPEG" then ".jpg" else ".png")
            ∈ (convert_image_sync fs nm fmt b).writes
        ∧ pyWithSuffix nm (if fmt = "JPEG" then ".jpg" else ".png")
            ∈ (convert_image_sync fs nm fmt b).fs
        ∧ pyWithSuffix nm (if fmt = "JPEG" then ".jpg" else ".png") ≠ nm) := by
  by_cases h1 : lowerStr (pySuffix nm) ∈ SUPPORTED_IMAGE_FORMATS
  · cases b with
    | true =>
      have hout : convert_image_sync fs nm fmt true = ⟨nm, fs, [], []⟩ := by
        unfold convert_image_sync
        rw [if_neg (not_not_intro h1)]
        rfl
      refine ⟨fun _ => hout, fun x hx => ?_⟩
      rw [hout] at hx
      simp at hx
    | false =>
      refine ⟨fun h => by simp at h, fun x hx => ?_⟩
      by_cases h2 : pyWithSuffix nm (if fmt = "JPEG" then ".jpg" else ".png") = nm
      · have hout : convert_image_sync fs nm fmt false =
            ⟨nm, (if nm ∈ fs then fs else nm :: fs), [nm], []⟩ := by
          unfold convert_image_sync
          rw [if_neg (not_not_intro h1)]
          simp [h2]
        rw [hout] at hx
        simp at hx
      · have hout : convert_image_sync fs nm fmt false =
            ⟨pyWithSuffix nm (if fmt = "JPEG" then ".jpg" else ".png"),
             (if pyWithSuffix nm (if fmt = "JPEG" then ".jpg" else ".png") ∈ fs then fs
              else pyWithSuffix nm (if fmt = "JPEG" then ".jpg" else ".png") :: fs).erase nm,
             [pyWithSuffix nm (if fmt = "JPEG" then ".jpg" else ".png")], [nm]⟩ := by
          unfold convert_image_sync
          rw [if_neg (not_not_intro h1)]
          simp [h2]
        rw [hout] at hx
        simp at hx
        refine ⟨rfl, hx, by rw [hout]; simp, ?_, h2⟩
        rw [hout]
        show pyWithSuffix nm (if fmt = "JPEG" then ".jpg" else ".png") ∈
          (if pyWithSuffix nm (if fmt = "JPEG" then ".jpg" else ".png") ∈ fs then fs
           else pyWithSuffix nm (if fmt = "JPEG" then ".jpg" else ".png") :: fs).erase nm
        by_cases h3 : pyWithSuffix nm (if fmt = "JPEG" then ".jpg" else ".png") ∈ fs
        · rw [if_pos h3, List.mem_erase_of_ne h2]
          exact h3
        · rw [if_neg h3, List.mem_erase_of_ne h2]
          exact List.mem_cons_self _ _
  · have hout : convert_image_sync fs nm fmt b = ⟨nm, fs, [], []⟩ := by
      unfold convert_image_sync
      rw [if_pos h1]
    refine ⟨fun _ => hout, fun x hx => ?_⟩
    rw [hout] at hx
    simp at hx

/-- C8 witness: a failing conversion of `photo.png` leaves storage exactly
as it was, deleting and writing nothing. -/
theorem C8_witness :
    convert_image_sync ["photo.png"] "photo.png" "JPEG" true =
      ⟨"photo.png", ["photo.png"], [], []⟩ :=
  (C8_convert_safe ["photo.png"] "photo.png" "JPEG" true).1 rfl

/-- C9: at the failing input — a batch whose first file has an empty
filename and whose second file `x.exe` fails validation — the single error
string names `files[0]` (the empty filename) instead of the originating
file `x.exe`: the result loop indexes the unfiltered `files` list with the
position in the filtered task list. -/
theorem C9_misattribution :
    (upload_files [] [⟨"", 5, none⟩, ⟨"x.exe", 10, none⟩]).response =
      .ok ⟨0, 1, ["File : File type .exe not supported"]⟩
    ∧ "File : File type .exe not supported" ≠
        "File x.exe: File type .exe not supported" :=
  ⟨rfl, by decide⟩

/-- C10: files with an empty (falsy) filename are silently skipped — the
batch behaves exactly like the batch with those files removed, up to stored
names and writes, and the counts and the number of error strings. -/
theorem C10_skip_empty (fs : List String) (files : List UpFile)
    (hlen : files.length ≤ MAX_FILES_PER_REQUEST) :
    (upload_files fs files).fs =
      (upload_files fs (files.filter (fun f => f.filename != ""))).fs
    ∧ (upload_files fs files).writes =
      (upload_files fs (files.filter (fun f => f.filename != ""))).writes
    ∧ (upload_files fs files).response.map
        (fun r => (r.successful, r.failed, r.errors.length)) =
      (upload_files fs (files.filter (fun f => f.filename != ""))).response.map
        (fun r => (r.successful, r.failed, r.errors.length)) := by
  have hlen2 : (files.filter (fun f => f.filename != "")).length ≤ MAX_FILES_PER_REQUEST :=
    le_trans (List.length_filter_le _ _) hlen
  have hidem : (files.filter (fun f => f.filename != "")).filter
      (fun f => f.filename != "") = files.filter (fun f => f.filename != "") := by
    rw [List.filter_filter]
    exact List.filter_congr (fun a _ => Bool.and_self _)
  rw [upload_files_ok fs files (by omega),
    upload_files_ok fs (files.filter (fun f => f.filename != "")) (by omega), hidem]
  refine ⟨rfl, rfl, ?_⟩
  simp only [Except.map]
  obtain ⟨a1, a2, a3⟩ := aggregate_counts files
    (runSaves fs (files.filter (fun f => f.filename != ""))).1 0
  obtain ⟨b1, b2, b3⟩ := aggregate_counts (files.filter (fun f => f.filename != ""))
    (runSaves fs (files.filter (fun f => f.filename != ""))).1 0
  rw [a1, a2, a3, b1, b2, b3]

/-- C10 witness: a batch with an empty-filename file plus one failing file
counts only the named file and behaves like the one-file batch. -/
theorem C10_witness :
    [⟨"", 1, none⟩, (⟨"doc.txt", 2, some "boom"⟩ : UpFile)].length ≤ MAX_FILES_PER_REQUEST
    ∧ (upload_files [] [⟨"", 1, none⟩, ⟨"doc.txt", 2, some "boom"⟩]).response.map
        (fun r => (r.successful, r.failed, r.errors.length)) = .ok (0, 1, 1) := by
  refine ⟨by decide, ?_⟩
  have h := (C10_skip_empty [] [⟨"", 1, none⟩, ⟨"doc.txt", 2, some "boom"⟩] (by decide)).2.2
  exact h.trans (by rfl)

end FileShare
